import Mathlib

/-!
Verification of the laser-metrics telemetry dashboard.

The shallow embedding below translates the repository's executable code:
- `src/app/components/MetricsDisplay.vue` — the periodic metrics timer
  (`setInterval(updateMetrics, 1000)`) and the `updateMetrics` generator;
- `src/app/components/ControlPanel.vue` — the `isMonitoring` / `hasData`
  flags and the `startMonitoring` / `stopMonitoring` handlers;
- the Pinia store `addReading` / `setMonitoring` actions whose code appears
  in `src/docs/PROJECT.md` (stores/sensor.ts);
- the documented simulation ranges of `src/docs/PROJECT.md`.

`Math.random()` draws are modelled as rationals `r` with `0 ≤ r < 1`;
JavaScript numbers are modelled as `ℚ`, `Math.floor` as `Int.floor`.
Timestamps (`new Date().toISOString()`) are modelled as opaque `Nat` clock
values.
-/

namespace LaserMetrics

/-- The `SensorMetrics` interface of MetricsDisplay.vue (timestamp string
modelled as a `Nat` clock value). -/
structure SensorMetrics where
  laserIntensity : ℤ
  temperature : ℚ
  measurementRate : ℚ
  timestamp : Nat
deriving DecidableEq, Repr

/-- The interval constant passed to `setInterval(updateMetrics, 1000)` in
MetricsDisplay.vue's `onMounted` hook, in milliseconds. -/
def updateIntervalMs : Nat := 1000

/-- The initial `metrics` ref value of MetricsDisplay.vue:
`{ laserIntensity: 0, temperature: 25, measurementRate: 10, timestamp: now }`. -/
def initialMetrics : SensorMetrics :=
  { laserIntensity := 0, temperature := 25, measurementRate := 10, timestamp := 0 }

/-- The `updateMetrics` function of MetricsDisplay.vue. Each `Math.random()` call is a
separate draw `r1, r2, r3`; `t` is the current clock value.
`laserIntensity = Math.floor(Math.random() * 100)`,
`temperature = 25 + Math.random() * 10`,
`measurementRate = 5 + Math.random() * 15`. -/
def updateMetrics (r1 r2 r3 : ℚ) (t : Nat) : SensorMetrics :=
  { laserIntensity := Int.floor (r1 * 100)
    temperature := 25 + r2 * 10
    measurementRate := 5 + r3 * 15
    timestamp := t }

/-- The documented simulation ranges of `src/docs/PROJECT.md` (Device
Simulation): temperature 20–25 °C. -/
def temperatureMinDoc : ℚ := 20

/-- Documented temperature upper bound (PROJECT.md: 20–25 °C). -/
def temperatureMaxDoc : ℚ := 25

/-- Documented laser-intensity lower bound (PROJECT.md: 500–2000 units). -/
def intensityMinDoc : ℤ := 500

/-- Documented laser-intensity upper bound (PROJECT.md: 500–2000 units). -/
def intensityMaxDoc : ℤ := 2000

/-- The state of ControlPanel.vue: the two refs `isMonitoring` and
`hasData`, both initialised to `false`. -/
structure PanelState where
  isMonitoring : Bool
  hasData : Bool
deriving DecidableEq, Repr

/-- Initial ControlPanel state: `isMonitoring = ref(false)`, `hasData = ref(false)`. -/
def initialPanel : PanelState := { isMonitoring := false, hasData := false }

/-- The `startMonitoring` handler of ControlPanel.vue: sets `isMonitoring.value = true`
and `hasData.value = true` (the `emit('start')` has no effect on panel state). -/
def startMonitoring (_s : PanelState) : PanelState :=
  { isMonitoring := true, hasData := true }

/-- The `stopMonitoring` handler of ControlPanel.vue: sets `isMonitoring.value = false`
and leaves `hasData` untouched (the `emit('stop')` has no effect on panel state). -/
def stopMonitoring (s : PanelState) : PanelState :=
  { s with isMonitoring := false }

/-- A button press on the control panel: Start Monitoring or Stop Monitoring. -/
inductive PanelOp where
  | start
  | stop
deriving DecidableEq, Repr

/-- Apply one button press to the panel state. -/
def applyPanelOp (s : PanelState) (op : PanelOp) : PanelState :=
  match op with
  | .start => startMonitoring s
  | .stop => stopMonitoring s

/-- Run a sequence of button presses from a panel state. -/
def runPanel (s : PanelState) (ops : List PanelOp) : PanelState :=
  ops.foldl applyPanelOp s

/-- The combined UI state: the ControlPanel flags, whether MetricsDisplay is
mounted (its interval is installed in `onMounted` and cleared in
`onUnmounted`), the current `metrics` ref, and the log of readings the
interval callback has produced. -/
structure DashboardState where
  panel : PanelState
  displayMounted : Bool
  metrics : SensorMetrics
  generated : List SensorMetrics
deriving DecidableEq, Repr

/-- Initial dashboard state: panel flags false, display not yet mounted,
metrics at their initial ref value, no reading produced. -/
def initialDashboard : DashboardState :=
  { panel := initialPanel
    displayMounted := false
    metrics := initialMetrics
    generated := [] }

/-- UI events: MetricsDisplay mount/unmount, the two ControlPanel buttons,
and a firing of the `setInterval` timer (with its three random draws and the
clock value at the tick). -/
inductive UiEvent where
  | mount
  | unmount
  | startMon
  | stopMon
  | timerTick (r1 r2 r3 : ℚ) (t : Nat)
deriving DecidableEq

/-- One UI step, as the code behaves: mount installs the interval, unmount
clears it (`clearInterval` in `onUnmounted`), the buttons run the
ControlPanel handlers, and a timer tick runs `updateMetrics` whenever the
interval is installed — the ControlPanel's `isMonitoring` flag is never
consulted by the tick path. -/
def stepUi (s : DashboardState) (e : UiEvent) : DashboardState :=
  match e with
  | .mount => { s with displayMounted := true }
  | .unmount => { s with displayMounted := false }
  | .startMon => { s with panel := startMonitoring s.panel }
  | .stopMon => { s with panel := stopMonitoring s.panel }
  | .timerTick r1 r2 r3 t =>
      if s.displayMounted then
        let m := updateMetrics r1 r2 r3 t
        { s with metrics := m, generated := s.generated ++ [m] }
      else s

/-- Run a sequence of UI events from a dashboard state. -/
def runUi (s : DashboardState) (es : List UiEvent) : DashboardState :=
  es.foldl stepUi s

/-- The `SensorReading` record of the repository (Rust struct in
PROJECT.md / Pinia store payload): timestamp, distance (mm), temperature,
intensity, processing time (ms). Numeric fields modelled as `ℚ` / `Nat`. -/
structure SensorReading where
  timestamp : Nat
  distance_mm : ℚ
  temperature : ℚ
  intensity : Nat
  processing_time_ms : Nat
deriving DecidableEq, Repr

/-- The hard-coded rolling-buffer capacity of the Pinia store `addReading`
action in PROJECT.md (`if (readings.value.length > 100) readings.value.shift()`). -/
def bufferCapacity : Nat := 100

/-- The `addReading` action of stores/sensor.ts (PROJECT.md): push the reading, then if
the length exceeds 100, shift off the oldest entry. -/
def addReading (readings : List SensorReading) (r : SensorReading) : List SensorReading :=
  if (readings ++ [r]).length > bufferCapacity then (readings ++ [r]).drop 1
  else readings ++ [r]

/-- The Pinia store state of stores/sensor.ts (PROJECT.md): the readings
buffer and the `isMonitoring` flag. -/
structure StoreState where
  readings : List SensorReading
  isMonitoring : Bool
deriving DecidableEq, Repr

/-- The `setMonitoring` action of stores/sensor.ts (PROJECT.md): sets the flag and
touches nothing else. -/
def setMonitoring (status : Bool) (s : StoreState) : StoreState :=
  { s with isMonitoring := status }

/-- The Statistics value (§3 of the spec): count plus optional aggregates.
`variance` is the population variance; the documented standard deviation is
its square root, kept as a variance to stay inside `ℚ`. `none` is the
explicit "undefined" marker for the empty case. -/
structure Statistics where
  count : Nat
  mean : Option ℚ
  minVal : Option ℚ
  maxVal : Option ℚ
  variance : Option ℚ
deriving DecidableEq, Repr

/-- Modelled from the spec: the StatisticsAggregator `compute` operation
(`calculate_statistics` lives in the absent Rust backend; only its
declaration appears in PROJECT.md). Per §4.3: empty input yields count = 0
and every aggregate `none`; non-empty input yields count = length,
arithmetic mean, extrema, and population variance computed two-pass
(mean first, then mean of squared deviations). -/
def compute (xs : List ℚ) : Statistics :=
  match xs with
  | [] => { count := 0, mean := none, minVal := none, maxVal := none, variance := none }
  | x :: rest =>
      let n : ℚ := ((x :: rest).length : ℚ)
      let mean := (x :: rest).sum / n
      { count := (x :: rest).length
        mean := some mean
        minVal := some (rest.foldl min x)
        maxVal := some (rest.foldl max x)
        variance := some (((x :: rest).map (fun v => (v - mean) ^ 2)).sum / n) }

/-- A sample reading used to instantiate universally quantified statements. -/
def sampleReading : SensorReading :=
  { timestamp := 0, distance_mm := 0, temperature := 0, intensity := 0, processing_time_ms := 0 }

/-- Closed form of the rolling buffer: folding `addReading` over any list of
readings from the empty buffer keeps exactly the last `bufferCapacity`
entries, i.e. drops `length - bufferCapacity` from the front. -/
theorem foldl_addReading_eq_drop (rs : List SensorReading) :
    List.foldl addReading [] rs = rs.drop (rs.length - bufferCapacity) := by
  induction rs using List.reverseRecOn with
  | nil => rfl
  | append_singleton l a ih =>
      rw [List.foldl_append]
      simp only [List.foldl_cons, List.foldl_nil]
      rw [ih]
      rcases Nat.lt_or_ge l.length bufferCapacity with hn | hn
      · have h0 : l.length - bufferCapacity = 0 := Nat.sub_eq_zero_of_le (Nat.le_of_lt hn)
        have h1 : (l ++ [a]).length - bufferCapacity = 0 := by
          simp only [List.length_append, List.length_singleton]
          omega
        rw [h0, h1, List.drop_zero, List.drop_zero]
        have hlen : ¬ (l ++ [a]).length > bufferCapacity := by
          simp only [List.length_append, List.length_singleton]
          omega
        rw [addReading, if_neg hlen]
      · have hbuf : (l.drop (l.length - bufferCapacity)).length = bufferCapacity := by
          rw [List.length_drop]
          omega
        have hgt : ((l.drop (l.length - bufferCapacity)) ++ [a]).length > bufferCapacity := by
          rw [List.length_append, hbuf]
          simp
        rw [addReading, if_pos hgt]
        have h1 : (1 : ℕ) ≤ (l.drop (l.length - bufferCapacity)).length := by
          rw [hbuf]; norm_num [bufferCapacity]
        rw [List.drop_append_of_le_length h1, List.drop_drop]
        have h2 : (l ++ [a]).length - bufferCapacity ≤ l.length := by
          simp only [List.length_append, List.length_singleton]
          have : (1 : ℕ) ≤ bufferCapacity := by norm_num [bufferCapacity]
          omega
        rw [List.drop_append_of_le_length h2]
        have h3 : l.length - bufferCapacity + 1 = (l ++ [a]).length - bufferCapacity := by
          simp only [List.length_append, List.length_singleton]
          omega
        rw [h3]

/-- Every panel state reachable by button presses from a state where
`hasData` holds still has `hasData`: no handler ever resets it. -/
theorem runPanel_hasData_mono (ops : List PanelOp) :
    ∀ s : PanelState, s.hasData = true → (runPanel s ops).hasData = true := by
  induction ops with
  | nil => intro s h; exact h
  | cons op rest ih =>
      intro s h
      cases op with
      | start => exact ih _ rfl
      | stop => exact ih _ h

/-- Invariant of panel runs: whenever `isMonitoring` holds, `hasData` holds
(start sets both; stop only clears `isMonitoring`). -/
theorem runPanel_monitoring_hasData (ops : List PanelOp) :
    ∀ s : PanelState, (s.isMonitoring = true → s.hasData = true) →
      (runPanel s ops).isMonitoring = true → (runPanel s ops).hasData = true := by
  induction ops with
  | nil => intro s h; exact h
  | cons op rest ih =>
      intro s h
      cases op with
      | start => exact ih _ (fun _ => rfl)
      | stop => exact ih _ (fun hm => Bool.noConfusion hm)

/-- C1 counterexample: the interval constant passed to the timer primitive
that drives reading generation is not 100 ms. -/
theorem updateIntervalMs_ne_100 : updateIntervalMs ≠ 100 := by
  decide

/-- C1 (amended): after `onMounted`, the periodic update timer fires at a
fixed interval of 1000 ms (1 Hz) — the constant passed to `setInterval` in
MetricsDisplay.vue equals 1000 milliseconds. -/
theorem updateIntervalMs_eq_1000 : updateIntervalMs = 1000 := rfl

/-- C2 (code bug): after the trace mount, start, stop, the next timer tick
still executes and produces a reading while `isMonitoring` is false — the
interval is cleared only on unmount, so `stopMonitoring` does not halt it. -/
theorem tick_fires_after_stop :
    (runUi initialDashboard
        [UiEvent.mount, UiEvent.startMon, UiEvent.stopMon,
         UiEvent.timerTick (1/2) (1/2) (1/2) 3]).panel.isMonitoring = false ∧
    (runUi initialDashboard
        [UiEvent.mount, UiEvent.startMon, UiEvent.stopMon,
         UiEvent.timerTick (1/2) (1/2) (1/2) 3]).generated =
      [updateMetrics (1/2) (1/2) (1/2) 3] := by
  exact ⟨rfl, rfl⟩

/-- C3 (code bug): at the legal random draw 1/2, `updateMetrics` produces a
temperature of 30 °C, above the documented 20–25 °C range, and a laser
intensity of 50, below the documented 500–2000 range. -/
theorem updateMetrics_outside_documented_bounds :
    (updateMetrics (1/2) (1/2) (1/2) 0).temperature = 30 ∧
    temperatureMaxDoc < (updateMetrics (1/2) (1/2) (1/2) 0).temperature ∧
    (updateMetrics (1/2) (1/2) (1/2) 0).laserIntensity = 50 ∧
    (updateMetrics (1/2) (1/2) (1/2) 0).laserIntensity < intensityMinDoc := by
  refine ⟨?_, ?_, ?_, ?_⟩ <;> norm_num [updateMetrics, temperatureMaxDoc, intensityMinDoc]

/-- C4: the monitoring state machine has initial state Stopped
(`isMonitoring = false`); start from Stopped yields Running; stop from
Running yields Stopped; stop while Stopped leaves the whole state unchanged;
and start while Running (in any reachable running state) is a no-op. -/
theorem panel_state_machine (s : PanelState) (ops : List PanelOp)
    (hs : s.isMonitoring = false)
    (hr : (runPanel initialPanel ops).isMonitoring = true) :
    initialPanel.isMonitoring = false ∧
    (startMonitoring s).isMonitoring = true ∧
    (stopMonitoring (startMonitoring s)).isMonitoring = false ∧
    stopMonitoring s = s ∧
    startMonitoring (runPanel initialPanel ops) = runPanel initialPanel ops := by
  have hd : (runPanel initialPanel ops).hasData = true :=
    runPanel_monitoring_hasData ops initialPanel (fun h => Bool.noConfusion h) hr
  refine ⟨rfl, rfl, rfl, ?_, ?_⟩
  · calc stopMonitoring s = { isMonitoring := false, hasData := s.hasData } := rfl
      _ = { isMonitoring := s.isMonitoring, hasData := s.hasData } := by rw [hs]
      _ = s := rfl
  · calc startMonitoring (runPanel initialPanel ops)
        = { isMonitoring := true, hasData := true } := rfl
      _ = { isMonitoring := (runPanel initialPanel ops).isMonitoring,
            hasData := (runPanel initialPanel ops).hasData } := by rw [hr, hd]
      _ = runPanel initialPanel ops := rfl

/-- C4 witness at the concrete inputs `initialPanel` and the one-press trace
`[start]`. -/
theorem panel_state_machine_witness :
    (initialPanel.isMonitoring = false ∧
      (runPanel initialPanel [PanelOp.start]).isMonitoring = true) ∧
    (initialPanel.isMonitoring = false ∧
      (startMonitoring initialPanel).isMonitoring = true ∧
      (stopMonitoring (startMonitoring initialPanel)).isMonitoring = false ∧
      stopMonitoring initialPanel = initialPanel ∧
      startMonitoring (runPanel initialPanel [PanelOp.start]) =
        runPanel initialPanel [PanelOp.start]) :=
  ⟨⟨rfl, rfl⟩, panel_state_machine initialPanel [PanelOp.start] rfl rfl⟩

/-- C5: the history buffer never exceeds its capacity: one `addReading` on a
buffer within capacity stays within capacity, and any sequence of pushes
from the empty buffer observes length ≤ capacity. -/
theorem history_length_le_capacity (buf : List SensorReading) (r : SensorReading)
    (rs : List SensorReading) (h : buf.length ≤ bufferCapacity) :
    (addReading buf r).length ≤ bufferCapacity ∧
    (List.foldl addReading [] rs).length ≤ bufferCapacity := by
  constructor
  · by_cases hlen : (buf ++ [r]).length > bufferCapacity
    · rw [addReading, if_pos hlen]
      simp only [List.length_drop, List.length_append, List.length_singleton]
      omega
    · rw [addReading, if_neg hlen]
      simp only [List.length_append, List.length_singleton] at hlen ⊢
      omega
  · rw [foldl_addReading_eq_drop, List.length_drop]
    omega

/-- C5 witness at the empty buffer, the sample reading, and the empty push
sequence. -/
theorem history_length_le_capacity_witness :
    (List.length ([] : List SensorReading) ≤ bufferCapacity) ∧
    ((addReading [] sampleReading).length ≤ bufferCapacity ∧
      (List.foldl addReading [] ([] : List SensorReading)).length ≤ bufferCapacity) :=
  ⟨by decide, history_length_le_capacity [] sampleReading [] (by decide)⟩

/-- C6: eviction is FIFO — pushing capacity + 1 readings into the empty
buffer leaves exactly the tail (the first-pushed reading is dropped), and a
push on a full buffer evicts the oldest entry while appending the new one,
preserving the order of the rest. -/
theorem history_fifo (rs : List SensorReading) (h : rs.length = bufferCapacity + 1) :
    List.foldl addReading [] rs = rs.drop 1 ∧
    ∀ (buf : List SensorReading) (r : SensorReading), buf.length = bufferCapacity →
      addReading buf r = buf.drop 1 ++ [r] := by
  constructor
  · rw [foldl_addReading_eq_drop, h, Nat.add_sub_cancel_left]
  · intro buf r hb
    have hgt : (buf ++ [r]).length > bufferCapacity := by
      simp [hb]
    rw [addReading, if_pos hgt]
    exact List.drop_append_of_le_length (by rw [hb]; norm_num [bufferCapacity])

/-- C6 witness: pushing 101 copies of the sample reading drops exactly the
first one. -/
theorem history_fifo_witness :
    (List.replicate (bufferCapacity + 1) sampleReading).length = bufferCapacity + 1 ∧
    (List.foldl addReading [] (List.replicate (bufferCapacity + 1) sampleReading) =
        (List.replicate (bufferCapacity + 1) sampleReading).drop 1 ∧
      ∀ (buf : List SensorReading) (r : SensorReading), buf.length = bufferCapacity →
        addReading buf r = buf.drop 1 ++ [r]) :=
  ⟨by simp, history_fifo _ (by simp)⟩

/-- C7: stop changes only the running flag — the store's `setMonitoring
false` leaves the readings (and therefore the statistics computed from them)
untouched, and the panel's `stopMonitoring` leaves `hasData` untouched. -/
theorem stop_preserves_history (s : StoreState) (p : PanelState) :
    (setMonitoring false s).readings = s.readings ∧
    (setMonitoring false s).isMonitoring = false ∧
    (stopMonitoring p).hasData = p.hasData ∧
    compute (List.map SensorReading.distance_mm (setMonitoring false s).readings) =
      compute (List.map SensorReading.distance_mm s.readings) :=
  ⟨rfl, rfl, rfl, rfl⟩

/-- C8: computing statistics over the empty input yields count = 0 with
every aggregate an explicit `none` (no division, no NaN), and `count` always
equals the input length, so callers distinguish "no data" from "zero value"
via `count`. -/
theorem compute_empty_undefined :
    compute [] = { count := 0, mean := none, minVal := none, maxVal := none,
                   variance := none } ∧
    ∀ xs : List ℚ, (compute xs).count = xs.length := by
  refine ⟨rfl, ?_⟩
  intro xs
  cases xs with
  | nil => rfl
  | cons x rest => rfl

/-- C9: `startMonitoring` sets `hasData` without producing any reading (the
start event leaves the generated log unchanged), and `hasData` stays true
under every subsequent sequence of start/stop presses. -/
theorem hasData_sticky (s : PanelState) (d : DashboardState) (ops : List PanelOp) :
    (startMonitoring s).hasData = true ∧
    (stepUi d UiEvent.startMon).generated = d.generated ∧
    (runPanel (startMonitoring s) ops).hasData = true :=
  ⟨rfl, rfl, runPanel_hasData_mono ops _ rfl⟩

/-- C10: the panel handlers are idempotent — starting twice equals starting
once (both flags true) and stopping twice equals stopping once
(`isMonitoring` false); start while already monitoring is a state-level
no-op, not an error. -/
theorem start_stop_idempotent (s : PanelState) :
    startMonitoring (startMonitoring s) = startMonitoring s ∧
    stopMonitoring (stopMonitoring s) = stopMonitoring s ∧
    (startMonitoring s).isMonitoring = true ∧
    (startMonitoring s).hasData = true ∧
    (stopMonitoring s).isMonitoring = false :=
  ⟨rfl, rfl, rfl, rfl, rfl⟩

end LaserMetrics
